import Mathlib

/-!
Verification of the schema-casting core of `mojap-arrow-pd-parser`
(`arrow_pd_parser/caster.py` and `arrow_pd_parser/_arrow_parsers.py`)
against its natural-language specification.

The Python code is shallowly embedded: pandas Series become `Series`
(a dtype tag plus a list of cell values), DataFrames become ordered
association lists from column name to Series, pyarrow schemas become
lists of `Field`s, and Python exceptions become an explicit `PyErr`
value threaded through `Except`.  External library calls
(`pd.to_numeric`, `pd.to_datetime`, `Series.astype`, dict lookup in
`Series.map`) are modelled value-by-value on the fragment of their
behaviour that the repository exercises; each model is documented at
its definition.
-/

/-- A Python exception from the libraries the caster calls (everything
other than the repository's own `PandasCastError`). -/
inductive PyBaseErr where
  | valueError (msg : String)
  | keyError (msg : String)
  | typeError (msg : String)
  | notImplementedError (msg : String)
  deriving DecidableEq, Repr

/-- A Python exception value.  `pandasCastError` keeps the original
exception alongside the message, modelling `raise
PandasCastError(msg).with_traceback(e.__traceback__)` (caster.py:415),
where the original traceback is preserved on the re-raised error. -/
inductive PyErr where
  | base (e : PyBaseErr)
  | pandasCastError (msg : String) (orig : PyBaseErr)
  deriving DecidableEq, Repr

/-- Shorthand for a raw `ValueError`. -/
def PyErr.valueError (msg : String) : PyErr := .base (.valueError msg)

/-- Shorthand for a raw `KeyError`. -/
def PyErr.keyError (msg : String) : PyErr := .base (.keyError msg)

/-- Shorthand for a raw `NotImplementedError`. -/
def PyErr.notImplementedError (msg : String) : PyErr := .base (.notImplementedError msg)

/-- A single cell of a pandas Series.  `null` stands for any of
`np.nan` / `None` / `pd.NA` / `pd.NaT`; `ts` is an opaque parsed
datetime value remembered by its source text (no claim inspects
datetime values). -/
inductive PdVal where
  | null
  | str (s : String)
  | bool (b : Bool)
  | int (n : Int)
  | ts (src : String)
  | exc (e : PyErr)
  deriving DecidableEq, Repr

/-- The pandas dtypes the caster distinguishes.  `npInt64`/`npFloat64`
are the numpy dtypes `int64`/`float64`; `pdInt64`, `pdString`,
`pdBoolean` are the nullable extension dtypes `Int64`, `string`,
`boolean`; `npObject` is `object`, `npBool` is numpy `bool`,
`dt64` is `datetime64[ns]`. -/
inductive Dtype where
  | npObject
  | npBool
  | npInt64
  | npFloat64
  | pdInt64
  | pdString
  | pdBoolean
  | dt64
  deriving DecidableEq, Repr

/-- A pandas Series: a dtype tag and the cell values in row order. -/
structure Series where
  dtype : Dtype
  values : List PdVal
  deriving DecidableEq, Repr

/-- `pd.isna` on a single value. -/
def pdIsna (v : PdVal) : Bool :=
  match v with
  | .null => true
  | _ => false

/-- Python `str()` of a cell value (`str(np.nan) = "nan"`,
`str(True) = "True"`, integers print in decimal). -/
def pyStr (v : PdVal) : String :=
  match v with
  | .null => "nan"
  | .str s => s
  | .bool b => if b then "True" else "False"
  | .int n => toString n
  | .ts src => src
  | .exc e => match e with
      | .base (.valueError m) => m
      | .base (.keyError m) => m
      | .base (.typeError m) => m
      | .base (.notImplementedError m) => m
      | .pandasCastError m _ => m

/-- Python `str.strip()` restricted to ASCII whitespace (the inputs the
repository feeds it contain only spaces and tabs). -/
def pyStrip (s : String) : String :=
  ⟨((s.data.dropWhile Char.isWhitespace).reverse.dropWhile Char.isWhitespace).reverse⟩

/-- Python `str.lower()`. -/
def pyLower (s : String) : String :=
  ⟨s.data.map Char.toLower⟩

/-- First-match lookup in an ordered association list (Python dict
access / `dict.get`). -/
def alistGet {α : Type} (l : List (String × α)) (k : String) : Option α :=
  match l with
  | [] => none
  | (k', v) :: rest => if k' = k then some v else alistGet rest k

/-- `alistGet` misses exactly the keys that are absent. -/
theorem alistGet_eq_none_of_not_mem {α : Type} (l : List (String × α)) (k : String)
    (h : k ∉ l.map Prod.fst) : alistGet l k = none := by
  induction l with
  | nil => rfl
  | cons p rest ih =>
    simp only [List.map_cons, List.mem_cons] at h
    push_neg at h
    simp only [alistGet]
    rw [if_neg (by simpa [eq_comm] using h.1)]
    exact ih h.2

/-- Decidable equality of `Except` results, so concrete runs of the
embedded functions can be checked by `decide`. -/
instance {ε α : Type} [DecidableEq ε] [DecidableEq α] : DecidableEq (Except ε α) := fun x y =>
  match x, y with
  | .ok a, .ok b =>
    if h : a = b then .isTrue (congrArg Except.ok h)
    else .isFalse (fun hc => h (Except.ok.inj hc))
  | .error a, .error b =>
    if h : a = b then .isTrue (congrArg Except.error h)
    else .isFalse (fun hc => h (Except.error.inj hc))
  | .ok _, .error _ => .isFalse (fun hc => Except.noConfusion hc)
  | .error _, .ok _ => .isFalse (fun hc => Except.noConfusion hc)

/-- Byte-wise prefix test on character lists. -/
def charsPre : List Char → List Char → Bool
  | [], _ => true
  | _ :: _, [] => false
  | a :: as, b :: bs => a = b && charsPre as bs

/-- Substring search on character lists. -/
def charsSub (needle : List Char) : List Char → Bool
  | [] => needle.isEmpty
  | c :: rest => charsPre needle (c :: rest) || charsSub needle rest

/-- `containsSub hay needle` holds when `needle` occurs contiguously in
`hay` (used to state that an error message names a column/type). -/
def containsSub (hay needle : String) : Bool :=
  charsSub needle.data hay.data

theorem charsPre_append (l suf : List Char) : charsPre l (l ++ suf) = true := by
  induction l with
  | nil => rfl
  | cons c cs ih => simp [charsPre, ih]

theorem charsSub_of_charsPre (needle l : List Char) (h : charsPre needle l = true) :
    charsSub needle l = true := by
  cases l with
  | nil =>
    cases needle with
    | nil => rfl
    | cons a as => simp [charsPre] at h
  | cons c rest => simp [charsSub, h]

theorem charsSub_append (pre needle suf : List Char) :
    charsSub needle (pre ++ (needle ++ suf)) = true := by
  induction pre with
  | nil => exact charsSub_of_charsPre _ _ (charsPre_append needle suf)
  | cons c cs ih => simp [charsSub, ih]

/-- A string built around `needle` contains `needle`. -/
theorem containsSub_of_parts (pre needle suf : String) :
    containsSub (pre ++ (needle ++ suf)) needle = true := by
  simp only [containsSub, String.data_append]
  exact charsSub_append pre.data needle.data suf.data

/-!
## Boolean Mapper (caster.py lines 71-295)
-/

/-- The hard-coded `basic_map` of `_default_str_bool_mapper`
(caster.py:128-141).  The Python dict also carries a `None` key, which
can never match because the lookup key `s_str` is always a `str`; the
`""` key is kept for fidelity although the emptiness guard fires
first. -/
def basicMap : List (String × PdVal) :=
  [("yes", .bool true),
   ("no", .bool false),
   ("true", .bool true),
   ("t", .bool true),
   ("false", .bool false),
   ("f", .bool false),
   ("1", .bool true),
   ("1.0", .bool true),
   ("0.0", .bool false),
   ("0", .bool false),
   ("", .null)]

/-- `_default_str_bool_mapper` (caster.py:71-159).  Maps one value to a
boolean via `basic_map` after `str(s).strip().lower()`.  With any
`bool_errors` other than `"coerce"`/`"raise"` the Python function falls
off the end and returns `None`, modelled as `.ok .null`. -/
def default_str_bool_mapper (s : PdVal) (bool_errors : String) : Except PyErr PdVal :=
  let s_str := pyLower (pyStrip (pyStr s))
  if pdIsna s || s_str.isEmpty then .ok .null
  else if bool_errors = "coerce" then .ok ((alistGet basicMap s_str).getD .null)
  else if bool_errors = "raise" then
    match alistGet basicMap s_str with
    | some v => .ok v
    | none => .error (.valueError s_str)
  else .ok .null

/-- Renders a Python list of strings, e.g. `['apple', 'banana']`
(the `Details: {casting_errors}` part of the batched message). -/
def renderStrList (l : List String) : String :=
  "[" ++ String.intercalate ", " (l.map (fun x => "'" ++ x ++ "'")) ++ "]"

/-- The batched error message of `check_bool_mapping_errors`
(caster.py:231-234); the source builds it from a triple-quoted
f-string, hence the embedded newline and indentation. -/
def boolBatchMsg (casting_errors : List String) : String :=
  toString casting_errors.length
    ++ " values could not be cast to boolean values.\n            Details: "
    ++ renderStrList casting_errors

/-- `check_bool_mapping_errors` (caster.py:162-236): maps `func` over
the series, replacing each raising value with `np.nan` while collecting
the error messages, then raises a single batched `ValueError` if any
were collected. -/
def check_bool_mapping_errors (series : List PdVal)
    (func : PdVal → String → Except PyErr PdVal) (bool_errors : String) :
    Except PyErr (List PdVal) :=
  let results := series.map (fun v => func v bool_errors)
  let casting_errors := results.filterMap
    (fun r => match r with
      | .error (.base (.valueError m)) => some m
      | .error _ => none
      | .ok _ => none)
  if casting_errors.isEmpty then
    .ok (results.map (fun r => match r with | .ok v => v | .error _ => PdVal.null))
  else
    .error (.valueError (boolBatchMsg casting_errors))

/-- `pandas.api.types.is_numeric_dtype` on the dtypes of this model. -/
def isNumericDtype (d : Dtype) : Bool :=
  match d with
  | .npInt64 | .npFloat64 | .pdInt64 => true
  | _ => false

/-- `_infer_bool_type` (caster.py:239-252). -/
def infer_bool_type (s : Series) : String :=
  if s.dtype = .npBool then "bool"
  else if s.dtype = .pdBoolean then "boolean"
  else if isNumericDtype s.dtype then "numeric"
  else if s.values.all (fun v => (match v with | .bool _ => true | _ => false) || pdIsna v)
    then "bool_object"
  else "str_object"

/-- `Series.astype(str)`: every cell becomes its `str()` text (so
`np.nan` becomes the string `"nan"`), dtype `object`. -/
def astypeStr (s : Series) : Series :=
  ⟨.npObject, s.values.map (fun v => .str (pyStr v))⟩

/-- `Series.map(bool_map)` for a dict `bool_map` with string keys and
boolean values: keys absent from the dict (and non-string cells,
including nulls) map to `np.nan`. -/
def seriesMapDict (m : List (String × Bool)) (v : PdVal) : PdVal :=
  match v with
  | .str k => match alistGet m k with
              | some b => .bool b
              | none => .null
  | _ => .null

/-- `Series.convert_dtypes(convert_boolean=True, all others False)`
(caster.py:288-294): a column whose cells are all booleans or nulls is
re-typed to the nullable `boolean` dtype; anything else is left
alone. -/
def convertDtypesBoolean (s : Series) : Series :=
  if s.values.all (fun v => (match v with | .bool _ => true | _ => false) || pdIsna v)
  then ⟨.pdBoolean, s.values⟩
  else s

/-- The value a column-conversion returns: normally a Series, but the
boolean path of `convert_to_bool_series` can return the caught
`ValueError` object itself (caster.py:282-284). -/
inductive PyRet where
  | series (s : Series)
  | excObj (e : PyErr)
  deriving DecidableEq, Repr

/-- `convert_to_bool_series` (caster.py:255-295).  Note the source's
`except ValueError as e: print(e); return e` around
`check_bool_mapping_errors`: the batched error is caught, printed and
returned as the function's result instead of propagating (the `print`
side effect is not modelled). -/
def convert_to_bool_series (s : Series) (pd_boolean : Bool)
    (bool_map : Option (List (String × Bool))) (bool_errors : String) :
    Except PyErr PyRet :=
  if !pd_boolean then
    .error (.notImplementedError "Casting to old bool type is not yet implemented")
  else
    let t := infer_bool_type s
    let s := if t = "numeric" then astypeStr s else s
    if t = "str_object" || t = "numeric" then
      match bool_map with
      | none =>
        match check_bool_mapping_errors s.values default_str_bool_mapper bool_errors with
        | .error e => .ok (.excObj e)
        | .ok vals => .ok (.series (convertDtypesBoolean ⟨s.dtype, vals⟩))
      | some m =>
        .ok (.series (convertDtypesBoolean ⟨s.dtype, s.values.map (seriesMapDict m)⟩))
    else
      .ok (.series (convertDtypesBoolean s))

/-!
## Scalar-category converters (caster.py lines 298-351)
-/

/-- Decimal digit list to number. -/
def digitsToNat : List Char → Option Nat
  | [] => none
  | l => l.foldl (fun acc c => match acc with
      | none => none
      | some n => if c.isDigit then some (n * 10 + (c.toNat - 48)) else none)
      (some 0)

/-- Integer-literal parsing, the fragment of `pd.to_numeric`'s numeric
parser the repository's data exercises (optionally signed decimal
integer literals; anything else is unparsable). -/
def parseIntLit (s : String) : Option Int :=
  match s.data with
  | '-' :: rest => (digitsToNat rest).map (fun n => -(n : Int))
  | '+' :: rest => (digitsToNat rest).map (fun n => (n : Int))
  | l => (digitsToNat l).map (fun n => (n : Int))

/-- One cell under `pd.to_numeric`: nulls pass through, numerics stay,
booleans become 0/1, strings parse as integer literals (see
`parseIntLit`), date values are unparsable. -/
def toNumericVal (v : PdVal) : Option PdVal :=
  match v with
  | .null => some .null
  | .int n => some (.int n)
  | .bool b => some (.int (if b then 1 else 0))
  | .str s => (parseIntLit s).map .int
  | .ts _ => none
  | .exc _ => none

/-- The dtype `pd.to_numeric` infers for its output: `float64` as soon
as a null is present (nulls are `NaN`), else `int64`. -/
def numericSeries (vals : List PdVal) : Series :=
  ⟨if vals.contains .null then .npFloat64 else .npInt64, vals⟩

/-- `pd.to_numeric(s, errors=...)`: `"ignore"` returns the input
unchanged, `"raise"` raises a `ValueError` naming the first unparsable
value, `"coerce"` turns unparsable values into null; any other string
is rejected by pandas itself. -/
def pd_to_numeric (s : Series) (errors : String) : Except PyErr Series :=
  if errors = "ignore" then .ok s
  else if errors = "raise" then
    match s.values.find? (fun v => (toNumericVal v).isNone) with
    | some bad => .error (.valueError ("Unable to parse string \"" ++ pyStr bad ++ "\""))
    | none => .ok (numericSeries (s.values.map (fun v => (toNumericVal v).getD .null)))
  else if errors = "coerce" then
    .ok (numericSeries (s.values.map (fun v => (toNumericVal v).getD .null)))
  else .error (.valueError "invalid error value specified")

/-- `Series.astype(pd.Int64Dtype())`: succeeds on numeric or null
cells, fails on anything else (e.g. leftover strings after
`errors="ignore"`). -/
def astypeInt64 (s : Series) : Except PyErr Series :=
  if s.values.all (fun v => (match v with | .int _ => true | _ => false) || pdIsna v)
  then .ok ⟨.pdInt64, s.values⟩
  else .error (.base (.typeError "object cannot be converted to an IntegerDtype"))

/-- `Series.astype(np.float64)`: same applicability, target dtype
`float64` (integral values are representable exactly, so cell values
are kept). -/
def astypeFloat64 (s : Series) : Except PyErr Series :=
  if s.values.all (fun v => (match v with | .int _ => true | _ => false) || pdIsna v)
  then .ok ⟨.npFloat64, s.values⟩
  else .error (.base (.typeError "could not convert to float64"))

/-- `convert_to_integer_series` (caster.py:299-308): numeric coercion
honouring `num_errors`, then `astype(pd.Int64Dtype())` only when
`pd_integer` is set. -/
def convert_to_integer_series (s : Series) (pd_integer : Bool) (num_errors : String) :
    Except PyErr Series :=
  match pd_to_numeric s num_errors with
  | .error e => .error e
  | .ok s' => if pd_integer then astypeInt64 s' else .ok s'

/-- `convert_to_float_series` (caster.py:311-318). -/
def convert_to_float_series (s : Series) (num_errors : String) : Except PyErr Series :=
  match pd_to_numeric s num_errors with
  | .error e => .error e
  | .ok s' => astypeFloat64 s'

/-- `Series.astype(pd.StringDtype())`: each cell becomes its string
form, nulls stay null. -/
def astypeStringDtype (s : Series) : Series :=
  ⟨.pdString, s.values.map (fun v => if pdIsna v then .null else .str (pyStr v))⟩

/-- `convert_to_string_series` (caster.py:321-329). -/
def convert_to_string_series (s : Series) (pd_string : Bool) : Series :=
  if pd_string then astypeStringDtype s else astypeStr s

/-!
## Timestamp Parser (caster.py lines 25-68 and 332-351)

No claim inspects parsed datetime values, so `pd.to_datetime` is
modelled opaquely: every non-empty, non-null string is treated as
parsable and is remembered as `PdVal.ts` of its source text.  The
structure of the code (format defaulting, dispatch on the output
representation, `NotImplementedError`/`ValueError` paths) is embedded
from the source.
-/

/-- Modelled `pd.to_datetime(s, format=..., errors=...)` over the cell
values (see the section comment). -/
def pd_to_datetime (vals : List PdVal) : List PdVal :=
  vals.map (fun v => match v with
    | .null => .null
    | .str x => if x.isEmpty then .null else .ts x
    | other => other)

/-- `_convert_str_to_ns_timestamp_series` (caster.py:25-36). -/
def convert_str_to_ns_timestamp_series (s : Series) (ts_errors : String)
    (str_datetime_format : Option String) : Except PyErr Series :=
  let _ := ts_errors
  let _ := str_datetime_format
  .ok ⟨.dt64, pd_to_datetime s.values⟩

/-- `_convert_str_to_datetime_obj_series` (caster.py:39-68): parse via
`to_datetime` into python datetime objects (dtype `object`), map
parse-failures and empties to `None`, truncate to dates when `is_date`
(truncation is invisible on the opaque `ts` values). -/
def convert_str_to_datetime_obj_series (s : Series) (is_date : Bool) (ts_errors : String)
    (str_datetime_format : Option String) : Except PyErr Series :=
  let fmt := match str_datetime_format with
    | none => if is_date then "%Y-%m-%d" else "%Y-%m-%d %H:%M:%S"
    | some f => f
  let _ := fmt
  let _ := ts_errors
  .ok ⟨.npObject, pd_to_datetime s.values⟩

/-- `convert_str_to_timestamp_series` (caster.py:332-351). -/
def convert_str_to_timestamp_series (s : Series) (is_date : Bool) (pd_type : String)
    (ts_errors : String) (str_datetime_format : Option String) : Except PyErr Series :=
  if pd_type = "pd_timestamp" then
    convert_str_to_ns_timestamp_series s ts_errors str_datetime_format
  else if pd_type = "datetime_object" then
    convert_str_to_datetime_obj_series s is_date ts_errors str_datetime_format
  else if pd_type = "pd_period" then
    .error (.notImplementedError "Conversion to period is not available yet for this caster")
  else
    .error (.valueError ("Incorrect pd_type, expecting \"datetime_object\", \"pd_timestamp\" or \"pd_period\". Got " ++ pd_type ++ "."))

/-!
## Column Caster (caster.py lines 354-417)
-/

/-- `_allowed_type_categories` (caster.py:10-18). -/
def allowedTypeCategories : List String :=
  ["integer", "boolean", "string", "float", "timestamp", "struct", "list"]

/-- A column descriptor, the `metacol` dict of the source.  Absent dict
keys are `none`. -/
structure MetaCol where
  name : String
  type : Option String
  type_category : Option String
  datetime_format : Option String
  num_errors : Option String
  bool_errors : Option String
  deriving DecidableEq, Repr

/-- Modelled from the spec: the Type Category Classifier (spec 4.1) is
the external `mojap_metadata` package's
`Metadata.set_col_type_category_from_types`, invoked at
caster.py:370-373 when the descriptor lacks `type_category`; the spec
describes it as "a fixed type-string → category table", keyed here on
the type string's prefix, failing when no category matches. -/
def deriveTypeCategory (t : String) : Option String :=
  if t.startsWith "int" || t.startsWith "uint" then some "integer"
  else if t.startsWith "bool" then some "boolean"
  else if t.startsWith "float" || t.startsWith "double" || t.startsWith "decimal"
    then some "float"
  else if t.startsWith "string" || t.startsWith "utf8" then some "string"
  else if t.startsWith "date" || t.startsWith "timestamp" then some "timestamp"
  else if t.startsWith "struct" then some "struct"
  else if t.startsWith "list" || t.startsWith "large_list" then some "list"
  else none

/-- The `type_category` enrichment step of `cast_pandas_column_to_schema`
(caster.py:369-373).  It runs before the `try` block, so its failures
propagate raw, not wrapped in `PandasCastError`. -/
def enrichMetaCol (c : MetaCol) : Except PyErr MetaCol :=
  match c.type_category with
  | some _ => .ok c
  | none =>
    match c.type with
    | none => .error (.keyError "type")
    | some ty =>
      match deriveTypeCategory ty with
      | some tc => .ok { c with type_category := some tc }
      | none => .error (.valueError ("ValidationError: no type_category for " ++ ty))

/-- The `Conversion Policy` bundle of flags threaded to every column
(the keyword arguments of caster.py:505-520 that the loop passes
through unchanged). -/
structure CastOpts where
  pd_integer : Bool
  pd_string : Bool
  pd_boolean : Bool
  pd_date_type : String
  pd_timestamp_type : String
  bool_map : Option (List (String × Bool))
  deriving DecidableEq, Repr

/-- Rendering of an optional dict entry under Python `str` formatting
(`None` when absent). -/
def renderOptStr (o : Option String) : String :=
  match o with
  | some t => t
  | none => "None"

/-- The `starter_msg` of the `PandasCastError` (caster.py:410-414). -/
def failedConversionMsg (metacol : MetaCol) : String :=
  "Failed conversion - name: " ++ metacol.name ++ " | type_category: "
    ++ renderOptStr metacol.type_category ++ " | type: "
    ++ renderOptStr metacol.type ++ " - see traceback."

/-- The `try` body of `cast_pandas_column_to_schema` (caster.py:376-407):
dispatch on `type_category`.  The `struct`/`list` branch emits a
(not modelled) warning and leaves the column unchanged. -/
def cast_column_body (s : Series) (metacol : MetaCol) (o : CastOpts)
    (num_errors ts_errors bool_errors : String) : Except PyErr PyRet :=
  if metacol.type_category = some "integer" then
    (convert_to_integer_series s o.pd_integer num_errors).map .series
  else if metacol.type_category = some "float" then
    (convert_to_float_series s num_errors).map .series
  else if metacol.type_category = some "boolean" then
    convert_to_bool_series s o.pd_boolean o.bool_map bool_errors
  else if metacol.type_category = some "string" then
    .ok (.series (convert_to_string_series s o.pd_string))
  else if metacol.type_category = some "timestamp" then
    match metacol.type with
    | none => .error (.keyError "type")
    | some ty =>
      (convert_str_to_timestamp_series s (ty.startsWith "date")
        (if ty.startsWith "date" then o.pd_date_type else o.pd_timestamp_type)
        ts_errors metacol.datetime_format).map .series
  else if metacol.type_category = some "struct" || metacol.type_category = some "list" then
    .ok (.series s)
  else
    .error (.valueError ("meta type_category must be one of "
      ++ renderStrList allowedTypeCategories ++ ".Got "
      ++ renderOptStr metacol.type_category ++ " from column " ++ metacol.name))

/-- `cast_pandas_column_to_schema` (caster.py:354-417): enrich the
descriptor, run the dispatch, and re-raise any exception from the body
as a `PandasCastError` carrying the diagnostic message and the original
error.  (The body only ever produces base exceptions, so the
`pandasCastError` case of the catch is vacuous and passes through.) -/
def cast_pandas_column_to_schema (s : Series) (metacol : MetaCol) (o : CastOpts)
    (num_errors ts_errors bool_errors : String) : Except PyErr PyRet :=
  match enrichMetaCol metacol with
  | .error e => .error e
  | .ok mc =>
    match cast_column_body s mc o num_errors ts_errors bool_errors with
    | .ok r => .ok r
    | .error (.base e) => .error (.pandasCastError (failedConversionMsg mc) e)
    | .error e => .error e

/-- Prepending text preserves substring containment. -/
theorem charsSub_append_left (pre needle l : List Char) (h : charsSub needle l = true) :
    charsSub needle (pre ++ l) = true := by
  induction pre with
  | nil => exact h
  | cons c cs ih => simp [charsSub, ih]

/-!
## Table Caster (caster.py lines 420-607)
-/

/-- A pandas DataFrame: ordered columns, each a named Series. -/
abbrev Frame := List (String × Series)

/-- `df[name] = col`: replace the named column in place, or append it
as the last column when absent. -/
def frameSet (df : Frame) (k : String) (v : Series) : Frame :=
  match df with
  | [] => [(k, v)]
  | (k', v') :: rest => if k' = k then (k, v) :: rest else (k', v') :: frameSet rest k v

/-- A validated metadata object: ordered column descriptors plus the
partition-column names (`meta.get("partitions", [])`). -/
structure Meta where
  columns : List MetaCol
  partitions : List String
  deriving DecidableEq, Repr

/-- Dict access `col_metadata[error_type_key]` for the two error keys
the source uses. -/
def metaColLookup (c : MetaCol) (key : String) : Option String :=
  if key = "num_errors" then c.num_errors
  else if key = "bool_errors" then c.bool_errors
  else none

/-- `get_error_value` (caster.py:420-502): column-level override, else
per-call map keyed by column name, else the supplied default.  Python's
`if map_dict and isinstance(map_dict, dict)` treats an empty dict as
falsy, hence the `isEmpty` test. -/
def get_error_value (col_metadata : MetaCol) (map_dict : Option (List (String × String)))
    (default_value : String) (error_type_key : String) : String :=
  match metaColLookup col_metadata error_type_key with
  | some v => v
  | none =>
    match map_dict with
    | some m =>
      if m.isEmpty then default_value
      else (alistGet m col_metadata.name).getD default_value
    | none => default_value

/-- The `ValueError` text for a schema column absent from the table
(caster.py:569). -/
def missingColMsg (name : String) : String :=
  "Column '" ++ (name ++ "' not in df")

/-- The result of a column conversion as stored back into the frame:
a Series replaces the column; an exception object (the
`convert_to_bool_series` quirk) is a scalar, which pandas broadcasts
over the frame's rows as an `object` column. -/
def materializeRet (r : PyRet) (nrows : Nat) : Series :=
  match r with
  | .series s => s
  | .excObj e => ⟨.npObject, List.replicate nrows (.exc e)⟩

/-- The `num_errors` update of one loop iteration (caster.py:572-578):
resolution is attempted only while the loop-wide value differs from
`"raise"`, and its result overwrites the loop-wide value. -/
def resolveNum (c : MetaCol) (num_error_map : Option (List (String × String)))
    (num_errors : String) : String :=
  if num_errors ≠ "raise"
  then get_error_value c num_error_map num_errors "num_errors"
  else num_errors

/-- The `bool_errors` update of one loop iteration (caster.py:579-585):
resolution is attempted only while the loop-wide value differs from
`"coerce"`, and its result overwrites the loop-wide value. -/
def resolveBool (c : MetaCol) (bool_error_map : Option (List (String × String)))
    (bool_errors : String) : String :=
  if bool_errors ≠ "coerce"
  then get_error_value c bool_error_map bool_errors "bool_errors"
  else bool_errors

/-- The per-column loop of `cast_pandas_table_to_schema`
(caster.py:566-598).  Faithful to the source, the resolved
`num_errors`/`bool_errors` overwrite the loop-wide variables
(`num_errors = get_error_value(...)`) for the remaining iterations.
`ts_errors` is never passed by the table caster, so the column caster's
default `"raise"` applies. -/
def castLoop (o : CastOpts) (num_error_map bool_error_map : Option (List (String × String)))
    (df : Frame) (cols : List MetaCol) (num_errors bool_errors : String) :
    Except PyErr (Frame × String × String) :=
  match cols with
  | [] => .ok (df, num_errors, bool_errors)
  | c :: rest =>
    match alistGet df c.name with
    | none => .error (.valueError (missingColMsg c.name))
    | some s =>
      match cast_pandas_column_to_schema s c o (resolveNum c num_error_map num_errors)
          "raise" (resolveBool c bool_error_map bool_errors) with
      | .error e => .error e
      | .ok r => castLoop o num_error_map bool_error_map
          (frameSet df c.name (materializeRet r s.values.length)) rest
          (resolveNum c num_error_map num_errors)
          (resolveBool c bool_error_map bool_errors)

/-- `meta_cols_to_convert` (caster.py:559-564): schema columns minus
`ignore_columns`, `drop_columns` and partition columns. -/
def convertColsOf (meta : Meta) (ignore_columns drop_columns : List String) : List MetaCol :=
  meta.columns.filter (fun c =>
    !((ignore_columns ++ drop_columns).contains c.name)
      && !(meta.partitions.contains c.name))

/-- `final_cols` (caster.py:600-604): schema order minus `drop_columns`
and partition columns (`ignore_columns` stay). -/
def finalColsOf (meta : Meta) (drop_columns : List String) : List String :=
  (meta.columns.filter (fun c =>
    !(drop_columns.contains c.name) && !(meta.partitions.contains c.name))).map MetaCol.name

/-- The final projection `df = df[final_cols]` (caster.py:605): selects
the named columns in the given order; a missing name is a `KeyError`. -/
def selectCols (df : Frame) (names : List String) : Except PyErr Frame :=
  match names with
  | [] => .ok []
  | n :: rest =>
    match alistGet df n with
    | none => .error (.keyError n)
    | some s =>
      match selectCols df rest with
      | .error e => .error e
      | .ok out => .ok ((n, s) :: out)

/-- `cast_pandas_table_to_schema` (caster.py:505-607) as a pure
function on frame values.  The metadata normalisation/validation of
lines 541-554 happens in the external `mojap_metadata` package and is
assumed done (`Meta` is already validated); `df = df.copy()` has no
observable effect at the value level and is modelled by
`cast_pandas_table_to_schema_heap` below. -/
def cast_pandas_table_to_schema (df : Frame) (meta : Meta)
    (ignore_columns drop_columns : List String) (o : CastOpts)
    (num_error_map bool_error_map : Option (List (String × String)))
    (num_errors bool_errors : String) : Except PyErr Frame :=
  match castLoop o num_error_map bool_error_map df
      (convertColsOf meta ignore_columns drop_columns) num_errors bool_errors with
  | .error e => .error e
  | .ok (df', _, _) => selectCols df' (finalColsOf meta drop_columns)

/-- A heap of frames: Python objects referenced by index; `ref` is the
caller's DataFrame object. -/
abbrev Store := List Frame

/-- `cast_pandas_table_to_schema` at the object level.  `df = df.copy()`
(caster.py:556) allocates a fresh frame; every later column assignment
of the loop mutates only that fresh cell, and the final projection
builds a further new object, returned to the caller.  The heap persists
through an exception (the fresh copy is then simply garbage). -/
def cast_pandas_table_to_schema_heap (store : Store) (ref : Nat) (meta : Meta)
    (ignore_columns drop_columns : List String) (o : CastOpts)
    (num_error_map bool_error_map : Option (List (String × String)))
    (num_errors bool_errors : String) : Store × Except PyErr Nat :=
  let df := store.getD ref []
  let store2 := store ++ [df]
  match cast_pandas_table_to_schema df meta ignore_columns drop_columns o
      num_error_map bool_error_map num_errors bool_errors with
  | .error e => (store2, .error e)
  | .ok out => (store2.set store.length out, .ok store.length)

/-!
## Arrow Schema Reconciler (_arrow_parsers.py lines 26-53)
-/

/-- A pyarrow field: name, type and nullability. -/
structure PaField where
  name : String
  type : String
  nullable : Bool
  deriving DecidableEq, Repr

/-- A pyarrow schema: an ordered list of fields. -/
abbrev PaSchema := List PaField

/-- `pa.Schema.names`. -/
def schemaNames (s : PaSchema) : List String := s.map PaField.name

/-- `pa.Schema.field(name)`: the field carrying the name (first match;
the schemas handled here carry each name once). -/
def schemaField (s : PaSchema) (nm : String) : PaField :=
  (s.find? (fun f => f.name == nm)).getD ⟨nm, "", true⟩

/-- `update_existing_schema` (_arrow_parsers.py:26-53), mirroring the
source's `updated_schema.append(...)` loop over `current_schema`. -/
def update_existing_schema (current_schema new_schema : PaSchema) : PaSchema :=
  current_schema.foldl (fun updated_schema field =>
    if (schemaNames new_schema).contains field.name
    then updated_schema ++ [schemaField new_schema field.name]
    else updated_schema ++ [field]) []

/-!
## Claims
-/

/-- Claim C8: under the default mapping, any string whose
whitespace-trimmed, lowercased form is one of "yes"/"true"/"t"/"1"/"1.0"
maps to true, one of "no"/"false"/"f"/"0"/"0.0" maps to false, the
empty string and null map to null, and under the `coerce` policy every
other value maps to null. -/
theorem C8_default_bool_mapping (x be : String) (hbe : be = "coerce" ∨ be = "raise") :
    (pyLower (pyStrip x) ∈ ["yes", "true", "t", "1", "1.0"] →
      default_str_bool_mapper (.str x) be = .ok (.bool true)) ∧
    (pyLower (pyStrip x) ∈ ["no", "false", "f", "0", "0.0"] →
      default_str_bool_mapper (.str x) be = .ok (.bool false)) ∧
    (pyStrip x = "" → default_str_bool_mapper (.str x) be = .ok .null) ∧
    (default_str_bool_mapper .null be = .ok .null) ∧
    (be = "coerce" →
      pyLower (pyStrip x) ∉ ["yes", "true", "t", "1", "1.0"] →
      pyLower (pyStrip x) ∉ ["no", "false", "f", "0", "0.0"] →
      default_str_bool_mapper (.str x) be = .ok .null) := by
  refine ⟨?_, ?_, ?_, ?_, ?_⟩
  · intro hT
    simp only [List.mem_cons, List.not_mem_nil, or_false] at hT
    rcases hbe with hbe | hbe <;> subst hbe <;>
      rcases hT with h | h | h | h | h <;>
      simp [default_str_bool_mapper, pyStr, pdIsna, h, basicMap, alistGet] <;> decide
  · intro hT
    simp only [List.mem_cons, List.not_mem_nil, or_false] at hT
    rcases hbe with hbe | hbe <;> subst hbe <;>
      rcases hT with h | h | h | h | h <;>
      simp [default_str_bool_mapper, pyStr, pdIsna, h, basicMap, alistGet] <;> decide
  · intro h
    rcases hbe with hbe | hbe <;> subst hbe <;>
      simp [default_str_bool_mapper, pyStr, pdIsna, h, pyLower] <;>
      exact fun hfalse => absurd hfalse (by decide)
  · rcases hbe with hbe | hbe <;> subst hbe <;>
      simp [default_str_bool_mapper, pyStr, pdIsna]
  · intro hbe' h1 h2
    subst hbe'
    by_cases hemp : (pyLower (pyStrip x)).isEmpty
    · simp [default_str_bool_mapper, pyStr, pdIsna, hemp]
    · have hne : pyLower (pyStrip x) ≠ "" := by
        intro h
        rw [h] at hemp
        exact hemp rfl
      have hnone : alistGet basicMap (pyLower (pyStrip x)) = none := by
        apply alistGet_eq_none_of_not_mem
        simp only [List.mem_cons, List.not_mem_nil, or_false] at h1 h2
        simp [basicMap]
        push_neg at h1 h2 ⊢
        exact ⟨h1.1, h2.1, h1.2.1, h1.2.2.1, h2.2.1, h2.2.2.1, h1.2.2.2.1,
          h1.2.2.2.2, h2.2.2.2.2, h2.2.2.2.1, hne⟩
      simp [default_str_bool_mapper, pyStr, pdIsna, hemp, hnone]

/-- Witness for C8 at concrete inputs. -/
theorem C8_default_bool_mapping_witness :
    default_str_bool_mapper (.str " Yes ") "coerce" = .ok (.bool true) ∧
    default_str_bool_mapper (.str "maybe") "coerce" = .ok .null :=
  ⟨(C8_default_bool_mapping " Yes " "coerce" (Or.inl rfl)).1 (by decide),
   (C8_default_bool_mapping "maybe" "coerce" (Or.inl rfl)).2.2.2.2 rfl
     (by decide) (by decide)⟩

/-- Claim C1 (evidence of the code bug): on a string column holding the
unmapped tokens "apple" and "banana" under `bool_errors="raise"`,
`check_bool_mapping_errors` does raise one batched `ValueError` naming
both tokens together, but `convert_to_bool_series` catches that error,
prints it, and returns the exception object as its result
(`.ok (.excObj ...)`): the conversion neither propagates the
`ValueError` nor returns a column. -/
theorem C1_bool_raise_returns_exception_object :
    check_bool_mapping_errors [.str "True", .str "False", .str "apple", .str "banana"]
        default_str_bool_mapper "raise"
      = .error (.valueError
          "2 values could not be cast to boolean values.\n            Details: ['apple', 'banana']") ∧
    convert_to_bool_series
        ⟨.npObject, [.str "True", .str "False", .str "apple", .str "banana"]⟩
        true none "raise"
      = .ok (.excObj (.valueError
          "2 values could not be cast to boolean values.\n            Details: ['apple', 'banana']")) ∧
    containsSub
      "2 values could not be cast to boolean values.\n            Details: ['apple', 'banana']"
      "apple" = true ∧
    containsSub
      "2 values could not be cast to boolean values.\n            Details: ['apple', 'banana']"
      "banana" = true := by
  refine ⟨by decide, by decide, by decide, by decide⟩

/-- Claim C10: when a custom `bool_map` dict is supplied for a string
column, the conversion result does not depend on `bool_errors` at all
(the right-hand side below is the same for every policy, including
`"raise"`), the conversion always succeeds, and every value absent from
the custom map becomes null. -/
theorem C10_custom_bool_map_ignores_policy (vals : List PdVal)
    (m : List (String × Bool)) (be : String)
    (h : infer_bool_type ⟨.npObject, vals⟩ = "str_object") :
    convert_to_bool_series ⟨.npObject, vals⟩ true (some m) be
      = .ok (.series ⟨.pdBoolean, vals.map (seriesMapDict m)⟩) ∧
    (∀ k, alistGet m k = none → seriesMapDict m (.str k) = .null) := by
  constructor
  · have hall : (vals.map (seriesMapDict m)).all
        (fun v => (match v with | PdVal.bool _ => true | _ => false) || pdIsna v) = true := by
      rw [List.all_map, List.all_eq_true]
      intro x _
      cases x with
      | str k =>
        cases hk : alistGet m k with
        | none => simp [Function.comp, seriesMapDict, pdIsna, hk]
        | some b => simp [Function.comp, seriesMapDict, pdIsna, hk]
      | null => simp [Function.comp, seriesMapDict, pdIsna]
      | bool b => simp [Function.comp, seriesMapDict, pdIsna]
      | int n => simp [Function.comp, seriesMapDict, pdIsna]
      | ts src => simp [Function.comp, seriesMapDict, pdIsna]
      | exc e => simp [Function.comp, seriesMapDict, pdIsna]
    simp [convert_to_bool_series, h, convertDtypesBoolean, hall]
  · intro k hk
    simp [seriesMapDict, hk]

/-- Witness for C10: a two-row column under `bool_errors="raise"` with
an unmapped token still converts, the unmapped token becoming null. -/
theorem C10_custom_bool_map_ignores_policy_witness :
    convert_to_bool_series ⟨.npObject, [.str "Yes", .str "maybe"]⟩ true
        (some [("Yes", true)]) "raise"
      = .ok (.series ⟨.pdBoolean, [.bool true, .null]⟩) := by
  have h := C10_custom_bool_map_ignores_policy [.str "Yes", .str "maybe"]
    [("Yes", true)] "raise" (by decide)
  exact h.1.trans (by decide)

/-- Claim C4 (counterexample): with the nullable-integer policy
disabled, an all-parseable string column comes out of
`convert_to_integer_series` with the `int64` dtype inferred by
`pd.to_numeric`, not the claimed 64-bit float representation — the
converter does no `float64` cast at all. -/
theorem C4_counterexample :
    convert_to_integer_series ⟨.npObject, [.str "1", .str "2"]⟩ false "raise"
      = .ok ⟨.npInt64, [.int 1, .int 2]⟩ ∧ Dtype.npInt64 ≠ Dtype.npFloat64 :=
  ⟨by decide, by decide⟩

/-- Claim C4 (amended): the integer converter parses via numeric
coercion honouring `num_errors`; with the nullable-integer policy
enabled a successful result has dtype `Int64`; with it disabled the
result is exactly the `pd.to_numeric` output, whose dtype is `float64`
when the parsed column contains nulls and `int64` otherwise. -/
theorem C4_integer_conversion (s : Series) (num_errors : String) :
    convert_to_integer_series s false num_errors = pd_to_numeric s num_errors ∧
    (∀ t, convert_to_integer_series s true num_errors = .ok t → t.dtype = .pdInt64) ∧
    (∀ t, num_errors ≠ "ignore" → pd_to_numeric s num_errors = .ok t →
      t.dtype = (if t.values.contains PdVal.null then Dtype.npFloat64 else Dtype.npInt64)) := by
  refine ⟨?_, ?_, ?_⟩
  · cases h : pd_to_numeric s num_errors <;> simp [convert_to_integer_series, h]
  · intro t h
    unfold convert_to_integer_series at h
    cases hp : pd_to_numeric s num_errors with
    | error e => rw [hp] at h; exact absurd h (by simp)
    | ok s' =>
      rw [hp] at h
      simp only [if_true] at h
      unfold astypeInt64 at h
      split at h
      · cases h
        rfl
      · exact absurd h (by simp)
  · intro t hne hok
    unfold pd_to_numeric at hok
    rw [if_neg hne] at hok
    split at hok
    · split at hok
      · exact absurd hok (by simp)
      · cases hok
        rfl
    · split at hok
      · cases hok
        rfl
      · exact absurd hok (by simp)

/-- Witness for the amended C4 at concrete inputs. -/
theorem C4_integer_conversion_witness :
    Series.dtype ⟨Dtype.pdInt64, [PdVal.int 1, PdVal.null]⟩ = Dtype.pdInt64 ∧
    Series.dtype ⟨Dtype.npFloat64, [PdVal.int 1, PdVal.null]⟩
      = (if List.contains [PdVal.int 1, PdVal.null] PdVal.null
         then Dtype.npFloat64 else Dtype.npInt64) :=
  ⟨(C4_integer_conversion ⟨.npObject, [.str "1", .str "x"]⟩ "coerce").2.1
      ⟨Dtype.pdInt64, [PdVal.int 1, PdVal.null]⟩ (by decide),
   (C4_integer_conversion ⟨.npObject, [.str "1", .str "x"]⟩ "coerce").2.2
      ⟨Dtype.npFloat64, [PdVal.int 1, PdVal.null]⟩ (by decide) (by decide)⟩

/-- Per-position description of the merge: B's field definition when
the name occurs in B, else the original field. -/
def mergeFieldBy (new_schema : PaSchema) (field : PaField) : PaField :=
  if (schemaNames new_schema).contains field.name
  then schemaField new_schema field.name
  else field

/-- `schemaField` always yields a field carrying the requested name
(the looked-up field when present, the placeholder otherwise). -/
theorem schemaField_name (B : PaSchema) (nm : String) : (schemaField B nm).name = nm := by
  unfold schemaField
  cases hf : B.find? (fun f => f.name == nm) with
  | some g =>
    have hp := List.find?_some hf
    simp only [beq_iff_eq] at hp
    simp [hp]
  | none => rfl

theorem mergeFieldBy_name (B : PaSchema) (f : PaField) :
    (mergeFieldBy B f).name = f.name := by
  unfold mergeFieldBy
  split
  · exact schemaField_name B f.name
  · rfl

/-- The source's append loop computes the per-position map. -/
theorem update_existing_schema_eq_map (current new_schema : PaSchema) :
    update_existing_schema current new_schema = current.map (mergeFieldBy new_schema) := by
  unfold update_existing_schema
  suffices h : ∀ acc : PaSchema, current.foldl (fun updated_schema field =>
      if (schemaNames new_schema).contains field.name
      then updated_schema ++ [schemaField new_schema field.name]
      else updated_schema ++ [field]) acc
      = acc ++ current.map (mergeFieldBy new_schema) by
    simpa using h []
  induction current with
  | nil => intro acc; simp
  | cons f rest ih =>
    intro acc
    simp only [List.foldl_cons, List.map_cons]
    by_cases hf : (schemaNames new_schema).contains f.name
    · rw [if_pos hf, ih, mergeFieldBy, if_pos hf]
      simp
    · rw [if_neg hf, ih, mergeFieldBy, if_neg hf]
      simp

/-- Claim C5: `update_existing_schema A B` has exactly `A`'s length and
column order — per position it holds `B`'s field definition when the
name also occurs in `B` and `A`'s field unchanged otherwise (the
`A.map (mergeFieldBy B)` characterisation) — and its name sequence is
`A`'s, so no field whose name occurs only in `B` appears. -/
theorem C5_update_existing_schema (A B : PaSchema) :
    update_existing_schema A B = A.map (mergeFieldBy B) ∧
    (update_existing_schema A B).length = A.length ∧
    schemaNames (update_existing_schema A B) = schemaNames A := by
  refine ⟨update_existing_schema_eq_map A B, ?_, ?_⟩
  · rw [update_existing_schema_eq_map]
    exact A.length_map (mergeFieldBy B)
  · rw [update_existing_schema_eq_map]
    unfold schemaNames
    rw [List.map_map]
    exact List.map_congr_left (fun f _ => mergeFieldBy_name B f)

theorem failedConversionMsg_names_col (mc : MetaCol) :
    containsSub (failedConversionMsg mc) mc.name = true := by
  unfold containsSub failedConversionMsg
  simp only [String.data_append, List.append_assoc]
  exact charsSub_append_left _ _ _ (charsSub_of_charsPre _ _ (charsPre_append _ _))

theorem failedConversionMsg_names_category (mc : MetaCol) :
    containsSub (failedConversionMsg mc) (renderOptStr mc.type_category) = true := by
  unfold containsSub failedConversionMsg
  simp only [String.data_append, List.append_assoc]
  exact charsSub_append_left _ _ _ (charsSub_append_left _ _ _ (charsSub_append_left _ _ _
    (charsSub_of_charsPre _ _ (charsPre_append _ _))))

theorem failedConversionMsg_names_type (mc : MetaCol) :
    containsSub (failedConversionMsg mc) (renderOptStr mc.type) = true := by
  unfold containsSub failedConversionMsg
  simp only [String.data_append, List.append_assoc]
  exact charsSub_append_left _ _ _ (charsSub_append_left _ _ _ (charsSub_append_left _ _ _
    (charsSub_append_left _ _ _ (charsSub_append_left _ _ _
      (charsSub_of_charsPre _ _ (charsPre_append _ _))))))

/-- The section-8 scenario schema: `n` int64/integer, `flag`
bool_/boolean. -/
def scenario8Meta : Meta :=
  ⟨[⟨"n", some "int64", some "integer", none, none, none⟩,
    ⟨"flag", some "bool_", some "boolean", none, none, none⟩], []⟩

/-- The section-8 scenario table: `n=["1","2","x"]`,
`flag=["yes","no","maybe"]`. -/
def scenario8Frame : Frame :=
  [("n", ⟨.npObject, [.str "1", .str "2", .str "x"]⟩),
   ("flag", ⟨.npObject, [.str "yes", .str "no", .str "maybe"]⟩)]

/-- The default Conversion Policy flags of `cast_pandas_table_to_schema`
(caster.py:510-515). -/
def defaultCastOpts : CastOpts :=
  ⟨true, true, true, "datetime_object", "datetime_object", none⟩

/-- Claim C3: every exception raised by a column's conversion body is
re-raised as a `PandasCastError` whose message names the column, the
type_category and the declared type and which carries the original
error (the modelled traceback); and casting the section-8 scenario
table with `num_errors="raise"` fails with this error naming column
`n`. -/
theorem C3_cast_error_wrapping :
    (∀ (s : Series) (metacol mc : MetaCol) (o : CastOpts) (ne te be : String) (e : PyBaseErr),
      enrichMetaCol metacol = .ok mc →
      cast_column_body s mc o ne te be = .error (.base e) →
      cast_pandas_column_to_schema s metacol o ne te be
        = .error (.pandasCastError (failedConversionMsg mc) e) ∧
      containsSub (failedConversionMsg mc) mc.name = true ∧
      containsSub (failedConversionMsg mc) (renderOptStr mc.type_category) = true ∧
      containsSub (failedConversionMsg mc) (renderOptStr mc.type) = true) ∧
    cast_pandas_table_to_schema scenario8Frame scenario8Meta [] [] defaultCastOpts
        none none "raise" "coerce"
      = .error (.pandasCastError
          "Failed conversion - name: n | type_category: integer | type: int64 - see traceback."
          (.valueError "Unable to parse string \"x\"")) ∧
    containsSub
      "Failed conversion - name: n | type_category: integer | type: int64 - see traceback."
      "name: n" = true := by
  refine ⟨?_, by decide, by decide⟩
  intro s metacol mc o ne te be e hen hbody
  refine ⟨?_, failedConversionMsg_names_col mc, failedConversionMsg_names_category mc,
    failedConversionMsg_names_type mc⟩
  unfold cast_pandas_column_to_schema
  rw [hen]
  dsimp only
  rw [hbody]

/-- Witness for C3 at the scenario's `n` column. -/
theorem C3_cast_error_wrapping_witness :
    cast_pandas_column_to_schema ⟨.npObject, [.str "1", .str "2", .str "x"]⟩
        ⟨"n", some "int64", some "integer", none, none, none⟩
        defaultCastOpts "raise" "raise" "coerce"
      = .error (.pandasCastError
          (failedConversionMsg ⟨"n", some "int64", some "integer", none, none, none⟩)
          (.valueError "Unable to parse string \"x\"")) :=
  (C3_cast_error_wrapping.1 ⟨.npObject, [.str "1", .str "2", .str "x"]⟩
    ⟨"n", some "int64", some "integer", none, none, none⟩
    ⟨"n", some "int64", some "integer", none, none, none⟩
    defaultCastOpts "raise" "raise" "coerce"
    (.valueError "Unable to parse string \"x\"") rfl (by decide)).1

/-- `name in df.columns`. -/
def hasCol (df : Frame) (n : String) : Bool := (alistGet df n).isSome

theorem hasCol_eq_contains (df : Frame) (n : String) :
    hasCol df n = (df.map Prod.fst).contains n := by
  induction df with
  | nil => rfl
  | cons p rest ih =>
    obtain ⟨k, v⟩ := p
    by_cases hk : k = n
    · subst hk
      simp [hasCol, alistGet, List.contains_cons]
    · have hnk : (n == k) = false := by
        rw [beq_eq_false_iff_ne]
        exact fun hh => hk hh.symm
      show (alistGet ((k, v) :: rest) n).isSome = _
      simp only [alistGet, if_neg hk, List.map_cons, List.contains_cons, hnk,
        Bool.false_or]
      exact ih

theorem frameSet_keys (df : Frame) (k : String) (v : Series) (h : hasCol df k = true) :
    (frameSet df k v).map Prod.fst = df.map Prod.fst := by
  induction df with
  | nil => simp [hasCol, alistGet] at h
  | cons p rest ih =>
    obtain ⟨k', v'⟩ := p
    by_cases hk : k' = k
    · subst hk
      simp [frameSet]
    · simp only [frameSet, if_neg hk, List.map_cons]
      congr 1
      apply ih
      simpa [hasCol, alistGet, hk] using h

theorem alistGet_frameSet_ne (df : Frame) (k n : String) (v : Series) (h : n ≠ k) :
    alistGet (frameSet df k v) n = alistGet df n := by
  induction df with
  | nil =>
    have hkn : ¬ k = n := fun hh => h hh.symm
    simp [frameSet, alistGet, hkn]
  | cons p rest ih =>
    obtain ⟨k', v'⟩ := p
    by_cases hk : k' = k
    · have hkn : ¬ k = n := fun hh => h hh.symm
      simp [frameSet, alistGet, hk, hkn]
    · by_cases hn : k' = n <;> simp [frameSet, alistGet, hk, hn, h, ih]

/-- A successful loop never changes which columns the frame has. -/
theorem castLoop_keys (o : CastOpts) (nm bm : Option (List (String × String)))
    (cols : List MetaCol) :
    ∀ (df df' : Frame) (ne be ne' be' : String),
      castLoop o nm bm df cols ne be = .ok (df', ne', be') →
      df'.map Prod.fst = df.map Prod.fst := by
  induction cols with
  | nil =>
    intro df df' ne be ne' be' h
    unfold castLoop at h
    simp only [Except.ok.injEq, Prod.mk.injEq] at h
    rw [← h.1]
  | cons c rest ih =>
    intro df df' ne be ne' be' h
    unfold castLoop at h
    cases hg : alistGet df c.name with
    | none => rw [hg] at h; exact absurd h (by simp)
    | some s =>
      rw [hg] at h
      dsimp only at h
      cases hc : cast_pandas_column_to_schema s c o (resolveNum c nm ne) "raise"
          (resolveBool c bm be) with
      | error e => rw [hc] at h; exact absurd h (by simp)
      | ok r =>
        rw [hc] at h
        dsimp only at h
        rw [ih _ _ _ _ _ _ h]
        exact frameSet_keys df c.name _ (by unfold hasCol; rw [hg]; rfl)

/-- A successful loop leaves every column it was not asked to cast
untouched. -/
theorem castLoop_untouched (o : CastOpts) (nm bm : Option (List (String × String)))
    (cols : List MetaCol) :
    ∀ (df df' : Frame) (ne be ne' be' : String) (n : String),
      (∀ c ∈ cols, c.name ≠ n) →
      castLoop o nm bm df cols ne be = .ok (df', ne', be') →
      alistGet df' n = alistGet df n := by
  induction cols with
  | nil =>
    intro df df' ne be ne' be' n _ h
    unfold castLoop at h
    simp only [Except.ok.injEq, Prod.mk.injEq] at h
    rw [← h.1]
  | cons c rest ih =>
    intro df df' ne be ne' be' n hn h
    unfold castLoop at h
    cases hg : alistGet df c.name with
    | none => rw [hg] at h; exact absurd h (by simp)
    | some s =>
      rw [hg] at h
      dsimp only at h
      cases hc : cast_pandas_column_to_schema s c o (resolveNum c nm ne) "raise"
          (resolveBool c bm be) with
      | error e => rw [hc] at h; exact absurd h (by simp)
      | ok r =>
        rw [hc] at h
        dsimp only at h
        have hrest : ∀ c' ∈ rest, MetaCol.name c' ≠ n :=
          fun c' hmem => hn c' (List.mem_cons_of_mem c hmem)
        rw [ih _ _ _ _ _ _ n hrest h]
        exact alistGet_frameSet_ne df c.name n _
          (fun hh => hn c (List.mem_cons_self c rest) hh.symm)

/-- The loop over `pre ++ suf` is the loop over `pre` continued, with
its final frame and policy values, over `suf`. -/
theorem castLoop_append_ok (o : CastOpts) (nm bm : Option (List (String × String)))
    (pre : List MetaCol) :
    ∀ (suf : List MetaCol) (df : Frame) (ne be : String)
      (df2 : Frame) (ne2 be2 : String),
      castLoop o nm bm df pre ne be = .ok (df2, ne2, be2) →
      castLoop o nm bm df (pre ++ suf) ne be = castLoop o nm bm df2 suf ne2 be2 := by
  induction pre with
  | nil =>
    intro suf df ne be df2 ne2 be2 h
    unfold castLoop at h
    simp only [Except.ok.injEq, Prod.mk.injEq] at h
    obtain ⟨h1, h2, h3⟩ := h
    subst h1
    subst h2
    subst h3
    rfl
  | cons c rest ih =>
    intro suf df ne be df2 ne2 be2 h
    rw [List.cons_append]
    unfold castLoop at h
    conv_lhs => rw [castLoop]
    cases hg : alistGet df c.name with
    | none =>
      rw [hg] at h
      exact absurd h (by simp)
    | some s =>
      rw [hg] at h
      dsimp only at h ⊢
      cases hc : cast_pandas_column_to_schema s c o (resolveNum c nm ne) "raise"
          (resolveBool c bm be) with
      | error e =>
        rw [hc] at h
        exact absurd h (by simp)
      | ok r =>
        rw [hc] at h
        dsimp only at h ⊢
        exact ih _ _ _ _ _ _ _ h

/-- When the frame lacks a column the loop is asked to cast, the loop
never succeeds. -/
theorem castLoop_never_ok (o : CastOpts) (nm bm : Option (List (String × String)))
    (cols : List MetaCol) :
    ∀ (df : Frame) (ne be : String) (c0 : MetaCol),
      c0 ∈ cols → hasCol df c0.name = false →
      ∀ out, castLoop o nm bm df cols ne be ≠ .ok out := by
  induction cols with
  | nil =>
    intro df ne be c0 hmem
    exact absurd hmem (List.not_mem_nil c0)
  | cons c rest ih =>
    intro df ne be c0 hmem hmiss out
    unfold castLoop
    cases hg : alistGet df c.name with
    | none => simp
    | some s =>
      dsimp only
      cases hc : cast_pandas_column_to_schema s c o (resolveNum c nm ne) "raise"
          (resolveBool c bm be) with
      | error e => simp
      | ok r =>
        dsimp only
        have hc0 : c0 ∈ rest := by
          cases List.mem_cons.mp hmem with
          | inl hEq =>
            exfalso
            rw [hEq] at hmiss
            unfold hasCol at hmiss
            rw [hg] at hmiss
            exact absurd hmiss (by simp)
          | inr hr => exact hr
        apply ih _ _ _ c0 hc0
        rw [hasCol_eq_contains,
          frameSet_keys df c.name _ (by unfold hasCol; rw [hg]; rfl),
          ← hasCol_eq_contains]
        exact hmiss

/-- When the first column the loop is asked to cast is missing from the
frame, the loop fails with the `ValueError` naming it. -/
theorem castLoop_missing_first (o : CastOpts) (nm bm : Option (List (String × String)))
    (df : Frame) (c : MetaCol) (rest : List MetaCol) (ne be : String)
    (hmiss : hasCol df c.name = false) :
    castLoop o nm bm df (c :: rest) ne be
      = .error (.valueError (missingColMsg c.name)) := by
  unfold castLoop
  have hget : alistGet df c.name = none := by
    unfold hasCol at hmiss
    cases hg : alistGet df c.name with
    | none => rfl
    | some s => rw [hg] at hmiss; exact absurd hmiss (by simp)
  rw [hget]

/-- A successful projection yields exactly the requested names in the
requested order, each bound to its value in the source frame. -/
theorem selectCols_spec (df : Frame) (names : List String) :
    ∀ out, selectCols df names = .ok out →
      out.map Prod.fst = names ∧ ∀ n ∈ names, alistGet out n = alistGet df n := by
  induction names with
  | nil =>
    intro out h
    unfold selectCols at h
    simp only [Except.ok.injEq] at h
    subst h
    exact ⟨rfl, by intro n hn; exact absurd hn (List.not_mem_nil n)⟩
  | cons n rest ih =>
    intro out h
    unfold selectCols at h
    cases hg : alistGet df n with
    | none => rw [hg] at h; exact absurd h (by simp)
    | some s =>
      rw [hg] at h
      dsimp only at h
      cases hsel : selectCols df rest with
      | error e => rw [hsel] at h; exact absurd h (by simp)
      | ok out' =>
        rw [hsel] at h
        dsimp only at h
        simp only [Except.ok.injEq] at h
        subst h
        obtain ⟨ihnames, ihvals⟩ := ih out' hsel
        constructor
        · simp [ihnames]
        · intro m hm
          by_cases hmn : n = m
          · subst hmn
            simp [alistGet, hg]
          · have hmr : m ∈ rest := by
              cases List.mem_cons.mp hm with
              | inl hEq => exact absurd hEq.symm hmn
              | inr hr => exact hr
            simp only [alistGet, if_neg hmn]
            exact ihvals m hmr

/-- Claim C7: a successful table cast returns exactly the schema's
column order with `drop_columns` and partition columns removed,
whatever the input frame's column order; and ignore-columns still in
that projection are passed through bound to their original Series
(same values and dtype, uncast). -/
theorem C7_output_columns (df : Frame) (meta : Meta)
    (ignore_columns drop_columns : List String) (o : CastOpts)
    (nm bm : Option (List (String × String))) (ne be : String) (out : Frame)
    (h : cast_pandas_table_to_schema df meta ignore_columns drop_columns o nm bm ne be
      = .ok out) :
    out.map Prod.fst = finalColsOf meta drop_columns ∧
    ∀ n, n ∈ ignore_columns → n ∈ finalColsOf meta drop_columns →
      alistGet out n = alistGet df n := by
  unfold cast_pandas_table_to_schema at h
  cases hl : castLoop o nm bm df (convertColsOf meta ignore_columns drop_columns) ne be with
  | error e => rw [hl] at h; exact absurd h (by simp)
  | ok res =>
    obtain ⟨df', ne', be'⟩ := res
    rw [hl] at h
    dsimp only at h
    obtain ⟨hnames, hvals⟩ := selectCols_spec df' (finalColsOf meta drop_columns) out h
    refine ⟨hnames, ?_⟩
    intro n hn hnf
    rw [hvals n hnf]
    apply castLoop_untouched o nm bm _ df df' ne be ne' be' n ?_ hl
    intro c hc hEq
    have hp := List.mem_filter.mp hc
    simp only [Bool.and_eq_true, Bool.not_eq_true'] at hp
    have hcontains := hp.2.1
    rw [hEq] at hcontains
    have hmem : n ∈ ignore_columns ++ drop_columns := List.mem_append_left _ hn
    rw [← List.elem_iff] at hmem
    have hct : (ignore_columns ++ drop_columns).contains n = true := hmem
    rw [hct] at hcontains
    simp at hcontains

/-- Witness for C7: a two-column schema with one ignored column. -/
theorem C7_output_columns_witness :
    [("a", (⟨Dtype.pdString, [PdVal.str "x"]⟩ : Series)),
     ("b", (⟨Dtype.npObject, [PdVal.str "y"]⟩ : Series))].map Prod.fst
      = finalColsOf
          ⟨[⟨"a", some "string", some "string", none, none, none⟩,
            ⟨"b", some "string", some "string", none, none, none⟩], []⟩ [] ∧
    ∀ n, n ∈ ["b"] →
      n ∈ finalColsOf
          ⟨[⟨"a", some "string", some "string", none, none, none⟩,
            ⟨"b", some "string", some "string", none, none, none⟩], []⟩ [] →
      alistGet
        [("a", (⟨Dtype.pdString, [PdVal.str "x"]⟩ : Series)),
         ("b", (⟨Dtype.npObject, [PdVal.str "y"]⟩ : Series))] n
        = alistGet
            [("b", (⟨Dtype.npObject, [PdVal.str "y"]⟩ : Series)),
             ("a", (⟨Dtype.npObject, [PdVal.str "x"]⟩ : Series))] n :=
  C7_output_columns
    [("b", ⟨Dtype.npObject, [PdVal.str "y"]⟩), ("a", ⟨Dtype.npObject, [PdVal.str "x"]⟩)]
    ⟨[⟨"a", some "string", some "string", none, none, none⟩,
      ⟨"b", some "string", some "string", none, none, none⟩], []⟩
    ["b"] [] defaultCastOpts none none "raise" "coerce"
    [("a", ⟨Dtype.pdString, [PdVal.str "x"]⟩), ("b", ⟨Dtype.npObject, [PdVal.str "y"]⟩)]
    (by decide)

/-- Does a table-cast result fail with a raw `ValueError` whose message
names `nm`? -/
def failsWithValueErrorNaming (r : Except PyErr Frame) (nm : String) : Bool :=
  match r with
  | .error (.base (.valueError m)) => containsSub m nm
  | _ => false

/-- The C9 counterexample schema: `n` then `m`, both integer columns. -/
def C9CexMeta : Meta :=
  ⟨[⟨"n", some "int64", some "integer", none, none, none⟩,
    ⟨"m", some "int64", some "integer", none, none, none⟩], []⟩

/-- The C9 counterexample table: only `n`, with an unparsable value;
`m` is missing. -/
def C9CexFrame : Frame := [("n", ⟨.npObject, [.str "x"]⟩)]

/-- Claim C9 (counterexample): column `m` is schema-declared, not
excluded, and absent from the input table, yet under
`num_errors="raise"` the cast fails with the `PandasCastError` thrown
by column `n`'s conversion — not with a `ValueError` naming `m`. -/
theorem C9_counterexample :
    cast_pandas_table_to_schema C9CexFrame C9CexMeta [] [] defaultCastOpts
        none none "raise" "coerce"
      = .error (.pandasCastError
          "Failed conversion - name: n | type_category: integer | type: int64 - see traceback."
          (.valueError "Unable to parse string \"x\"")) ∧
    failsWithValueErrorNaming
      (cast_pandas_table_to_schema C9CexFrame C9CexMeta [] [] defaultCastOpts
        none none "raise" "coerce") "m" = false :=
  ⟨by decide, by decide⟩

/-- Claim C9 (amended): if some non-excluded schema column is missing
from the input table, the cast never returns a table; and whenever the
loop reaches the missing column — every schema column before it
converting successfully — the failure is exactly the `ValueError`
naming that column (whose message contains the column name). -/
theorem C9_missing_column (df : Frame) (meta : Meta)
    (ignore_columns drop_columns : List String) (o : CastOpts)
    (nm bm : Option (List (String × String))) (ne be : String) :
    (∀ c0, c0 ∈ convertColsOf meta ignore_columns drop_columns →
      hasCol df c0.name = false →
      (∀ out, cast_pandas_table_to_schema df meta ignore_columns drop_columns o
          nm bm ne be ≠ .ok out) ∧
      containsSub (missingColMsg c0.name) c0.name = true) ∧
    (∀ pre c rest df2 ne2 be2,
      convertColsOf meta ignore_columns drop_columns = pre ++ c :: rest →
      hasCol df c.name = false →
      castLoop o nm bm df pre ne be = .ok (df2, ne2, be2) →
      cast_pandas_table_to_schema df meta ignore_columns drop_columns o nm bm ne be
        = .error (.valueError (missingColMsg c.name))) := by
  constructor
  · intro c0 hmem hmiss
    constructor
    · intro out hok
      unfold cast_pandas_table_to_schema at hok
      cases hl : castLoop o nm bm df (convertColsOf meta ignore_columns drop_columns)
          ne be with
      | error e => rw [hl] at hok; exact absurd hok (by simp)
      | ok res =>
        exact castLoop_never_ok o nm bm _ df ne be c0 hmem hmiss res hl
    · unfold missingColMsg
      exact containsSub_of_parts "Column '" c0.name "' not in df"
  · intro pre c rest df2 ne2 be2 hsplit hmiss hpre
    unfold cast_pandas_table_to_schema
    rw [hsplit, castLoop_append_ok o nm bm pre (c :: rest) df ne be df2 ne2 be2 hpre]
    have hkeys := castLoop_keys o nm bm pre df df2 ne be ne2 be2 hpre
    have hmiss2 : hasCol df2 c.name = false := by
      rw [hasCol_eq_contains, hkeys, ← hasCol_eq_contains]
      exact hmiss
    rw [castLoop_missing_first o nm bm df2 c rest ne2 be2 hmiss2]

/-- The C9 witness schema: a castable string column `a`, then the
missing integer column `m`. -/
def C9WitMeta : Meta :=
  ⟨[⟨"a", some "string", some "string", none, none, none⟩,
    ⟨"m", some "int64", some "integer", none, none, none⟩], []⟩

/-- The C9 witness table: only `a`. -/
def C9WitFrame : Frame := [("a", ⟨.npObject, [.str "x"]⟩)]

/-- Witness for the amended C9: with `a` converting successfully, the
cast fails with the `ValueError` naming the missing column `m`. -/
theorem C9_missing_column_witness :
    cast_pandas_table_to_schema C9WitFrame C9WitMeta [] [] defaultCastOpts
        none none "raise" "coerce"
      = .error (.valueError (missingColMsg "m")) :=
  (C9_missing_column C9WitFrame C9WitMeta [] [] defaultCastOpts none none
      "raise" "coerce").2
    [⟨"a", some "string", some "string", none, none, none⟩]
    ⟨"m", some "int64", some "integer", none, none, none⟩ []
    [("a", ⟨.pdString, [.str "x"]⟩)] "raise" "coerce"
    (by decide) (by decide) (by decide)

/-- The per-column policy pairs the loop actually uses: a stateful scan
of `resolveNum`/`resolveBool` along the columns, each resolved value
carried forward as the next column's default. -/
def policyScan (nm bm : Option (List (String × String))) :
    List MetaCol → String → String → List (String × String)
  | [], _, _ => []
  | c :: rest, ne, be =>
    (resolveNum c nm ne, resolveBool c bm be) ::
      policyScan nm bm rest (resolveNum c nm ne) (resolveBool c bm be)

/-- The casting loop with the per-column policies supplied up front. -/
def castLoopGivenPolicies (o : CastOpts) (df : Frame)
    (l : List (MetaCol × String × String)) : Except PyErr Frame :=
  match l with
  | [] => .ok df
  | (c, ne, be) :: rest =>
    match alistGet df c.name with
    | none => .error (.valueError (missingColMsg c.name))
    | some s =>
      match cast_pandas_column_to_schema s c o ne "raise" be with
      | .error e => .error e
      | .ok r =>
        castLoopGivenPolicies o (frameSet df c.name (materializeRet r s.values.length)) rest

/-- With `"raise"` carried, `resolveNum` never consults the override. -/
theorem resolveNum_raise (c : MetaCol) (nm : Option (List (String × String))) :
    resolveNum c nm "raise" = "raise" := by
  simp [resolveNum]

/-- With `"coerce"` carried, `resolveBool` never consults the override. -/
theorem resolveBool_coerce (c : MetaCol) (bm : Option (List (String × String))) :
    resolveBool c bm "coerce" = "coerce" := by
  simp [resolveBool]

theorem policyScan_raise (nm bm : Option (List (String × String))) (cols : List MetaCol) :
    ∀ be, (policyScan nm bm cols "raise" be).all (fun p => p.1 == "raise") = true := by
  induction cols with
  | nil => intro be; rfl
  | cons c rest ih =>
    intro be
    unfold policyScan
    rw [resolveNum_raise]
    simp only [List.all_cons, ih]
    simp

theorem policyScan_coerce (nm bm : Option (List (String × String))) (cols : List MetaCol) :
    ∀ ne, (policyScan nm bm cols ne "coerce").all (fun p => p.2 == "coerce") = true := by
  induction cols with
  | nil => intro ne; rfl
  | cons c rest ih =>
    intro ne
    unfold policyScan
    rw [resolveBool_coerce]
    simp only [List.all_cons, ih]
    simp

/-- Claim C2 (amended): the loop's effective per-column policies are
exactly the stateful `policyScan` (resolved values leak forward as
later columns' defaults), and when the call-wide `num_errors` is
`"raise"` (resp. `bool_errors` is `"coerce"`) every column is cast with
that value, the per-column overrides never being consulted. -/
theorem C2_policy_resolution (o : CastOpts) (nm bm : Option (List (String × String)))
    (cols : List MetaCol) :
    (∀ (df : Frame) (ne be : String),
      (castLoop o nm bm df cols ne be).map (fun res => res.1)
        = castLoopGivenPolicies o df (cols.zip (policyScan nm bm cols ne be))) ∧
    (∀ ne be, ne = "raise" →
      (policyScan nm bm cols ne be).all (fun p => p.1 == "raise") = true) ∧
    (∀ ne be, be = "coerce" →
      (policyScan nm bm cols ne be).all (fun p => p.2 == "coerce") = true) := by
  refine ⟨?_, ?_, ?_⟩
  · induction cols with
    | nil => intro df ne be; rfl
    | cons c rest ih =>
      intro df ne be
      unfold castLoop policyScan
      rw [List.zip_cons_cons]
      unfold castLoopGivenPolicies
      cases hg : alistGet df c.name with
      | none => rfl
      | some s =>
        dsimp only
        cases hc : cast_pandas_column_to_schema s c o (resolveNum c nm ne) "raise"
            (resolveBool c bm be) with
        | error e => rfl
        | ok r => exact ih _ _ _
  · intro ne be hne
    subst hne
    exact policyScan_raise nm bm cols be
  · intro ne be hbe
    subst hbe
    exact policyScan_coerce nm bm cols ne

/-- The claim's resolution rule, written from the spec's words (spec
4.6 step 3): every column resolved independently, with precedence
column-level override > per-call error map > the call-wide default,
one column's resolution never affecting another's.  Defined for
comparison with the source-embedded `castLoop`. -/
def castLoopIndependent (o : CastOpts) (nm bm : Option (List (String × String)))
    (call_ne call_be : String) (df : Frame) (cols : List MetaCol) : Except PyErr Frame :=
  match cols with
  | [] => .ok df
  | c :: rest =>
    match alistGet df c.name with
    | none => .error (.valueError (missingColMsg c.name))
    | some s =>
      match cast_pandas_column_to_schema s c o
          (get_error_value c nm call_ne "num_errors") "raise"
          (get_error_value c bm call_be "bool_errors") with
      | .error e => .error e
      | .ok r => castLoopIndependent o nm bm call_ne call_be
          (frameSet df c.name (materializeRet r s.values.length)) rest

/-- The table caster as the claim describes it: independent per-column
policy resolution, then the same projection. -/
def cast_table_claimed_policies (df : Frame) (meta : Meta)
    (ignore_columns drop_columns : List String) (o : CastOpts)
    (nm bm : Option (List (String × String))) (ne be : String) : Except PyErr Frame :=
  match castLoopIndependent o nm bm ne be df
      (convertColsOf meta ignore_columns drop_columns) with
  | .error e => .error e
  | .ok df' => selectCols df' (finalColsOf meta drop_columns)

/-- The C2 counterexample schema: `p` carries a column-level
`num_errors="raise"` override, `q` carries none. -/
def C2CexMeta : Meta :=
  ⟨[⟨"p", some "int64", some "integer", none, some "raise", none⟩,
    ⟨"q", some "int64", some "integer", none, none, none⟩], []⟩

/-- The C2 counterexample table: `p` parses, `q` does not. -/
def C2CexFrame : Frame :=
  [("p", ⟨.npObject, [.str "1"]⟩), ("q", ⟨.npObject, [.str "x"]⟩)]

/-- Claim C2 (counterexample): with call-wide `num_errors="coerce"`,
column `p`'s `"raise"` override leaks into column `q`: the actual cast
fails on `q`, while the claim's independent resolution (under which `q`
falls back to the call-wide `"coerce"`) succeeds with `q` coerced to
null. -/
theorem C2_counterexample :
    cast_pandas_table_to_schema C2CexFrame C2CexMeta [] [] defaultCastOpts
        none none "coerce" "coerce"
      = .error (.pandasCastError
          "Failed conversion - name: q | type_category: integer | type: int64 - see traceback."
          (.valueError "Unable to parse string \"x\"")) ∧
    cast_table_claimed_policies C2CexFrame C2CexMeta [] [] defaultCastOpts
        none none "coerce" "coerce"
      = .ok [("p", ⟨.pdInt64, [.int 1]⟩), ("q", ⟨.pdInt64, [.null]⟩)] :=
  ⟨by decide, by decide⟩

/-- Witness for the amended C2 at the counterexample schema. -/
theorem C2_policy_resolution_witness :
    (castLoop defaultCastOpts none none C2CexFrame C2CexMeta.columns "raise" "coerce").map
        (fun res => res.1)
      = castLoopGivenPolicies defaultCastOpts C2CexFrame
          (C2CexMeta.columns.zip (policyScan none none C2CexMeta.columns "raise" "coerce")) ∧
    (policyScan none none C2CexMeta.columns "raise" "coerce").all
        (fun p => p.1 == "raise") = true ∧
    (policyScan none none C2CexMeta.columns "raise" "coerce").all
        (fun p => p.2 == "coerce") = true :=
  ⟨(C2_policy_resolution defaultCastOpts none none C2CexMeta.columns).1
      C2CexFrame "raise" "coerce",
   (C2_policy_resolution defaultCastOpts none none C2CexMeta.columns).2.1
      "raise" "coerce" rfl,
   (C2_policy_resolution defaultCastOpts none none C2CexMeta.columns).2.2
      "raise" "coerce" rfl⟩

/-- Claim C6: the table cast never mutates the caller's table.  At the
object level, whether the cast succeeds or raises, every pre-existing
heap cell — in particular the caller's DataFrame at `ref` — is exactly
as it was before the call (the cast works on a defensive copy), and a
successful cast hands back a freshly allocated object
(`r = store.length`, beyond every pre-existing reference). -/
theorem C6_no_mutation (store : Store) (ref : Nat) (meta : Meta)
    (ignore_columns drop_columns : List String) (o : CastOpts)
    (nm bm : Option (List (String × String))) (ne be : String) :
    (∀ j, j < store.length →
      (cast_pandas_table_to_schema_heap store ref meta ignore_columns drop_columns o
          nm bm ne be).1.getD j []
        = store.getD j []) ∧
    (∀ r, (cast_pandas_table_to_schema_heap store ref meta ignore_columns drop_columns o
        nm bm ne be).2 = .ok r → r = store.length) := by
  unfold cast_pandas_table_to_schema_heap
  dsimp only
  cases hc : cast_pandas_table_to_schema (store.getD ref []) meta ignore_columns
      drop_columns o nm bm ne be with
  | error e =>
    refine ⟨?_, ?_⟩
    · intro j hj
      dsimp only
      rw [List.getD_eq_getElem?_getD, List.getElem?_append_left hj]
      exact (List.getD_eq_getElem?_getD store j []).symm
    · intro r hr
      exact absurd hr (by simp)
  | ok out =>
    refine ⟨?_, ?_⟩
    · intro j hj
      dsimp only
      rw [List.getD_eq_getElem?_getD, List.getElem?_set_ne (Nat.ne_of_gt hj),
        List.getElem?_append_left hj]
      exact (List.getD_eq_getElem?_getD store j []).symm
    · intro r hr
      dsimp only at hr
      simp only [Except.ok.injEq] at hr
      exact hr.symm

/-- Witness for C6: a one-column store, on both a succeeding cast and a
failing one. -/
theorem C6_no_mutation_witness :
    (cast_pandas_table_to_schema_heap [[("a", (⟨Dtype.npObject, [PdVal.str "x"]⟩ : Series))]]
        0 ⟨[⟨"a", some "string", some "string", none, none, none⟩], []⟩ [] []
        defaultCastOpts none none "raise" "coerce").1.getD 0 []
      = List.getD [[("a", (⟨Dtype.npObject, [PdVal.str "x"]⟩ : Series))]] 0 [] ∧
    (cast_pandas_table_to_schema_heap [[("a", (⟨Dtype.npObject, [PdVal.str "x"]⟩ : Series))]]
        0 ⟨[⟨"a", some "int64", some "integer", none, none, none⟩], []⟩ [] []
        defaultCastOpts none none "raise" "coerce").1.getD 0 []
      = List.getD [[("a", (⟨Dtype.npObject, [PdVal.str "x"]⟩ : Series))]] 0 [] :=
  ⟨(C6_no_mutation [[("a", ⟨Dtype.npObject, [PdVal.str "x"]⟩)]] 0
      ⟨[⟨"a", some "string", some "string", none, none, none⟩], []⟩ [] []
      defaultCastOpts none none "raise" "coerce").1 0 (by decide),
   (C6_no_mutation [[("a", ⟨Dtype.npObject, [PdVal.str "x"]⟩)]] 0
      ⟨[⟨"a", some "int64", some "integer", none, none, none⟩], []⟩ [] []
      defaultCastOpts none none "raise" "coerce").1 0 (by decide)⟩
